import Mathlib

/-!
Shallow embedding of the `postgres-from-row` derive macro
(`postgres-from-row-derive/src/lib.rs`) and of the runtime behaviour of the
code it generates.

The derive macro is a pure compile-time transformation: it reads a struct
declaration (name, generics, ordered field list with `#[from_row(..)]`
attributes) and emits an `impl postgres_from_row::FromRow` block containing
two functions, `from_row` and `try_from_row`.  We embed:

* `FromRowField` — the per-field descriptor darling parses (ident, type and
  the six recognised attributes `flatten`, `from`, `try_from`, `from_fn`,
  `try_from_fn`, `rename`);
* `FromRowField.validate`, `FromRowField.target_ty`,
  `FromRowField.column_name`, `FromRowField.add_predicates`,
  `FromRowField.generate_from_row`, `FromRowField.generate_try_from_row`;
* `DeriveFromRow` and `DeriveFromRow.generate`.

Token streams built by `quote!` are embedded as the inductive `GenExpr`: one
constructor per distinct `quote!` shape the generator can produce, keeping
the column-name strings, target types and the error-handling operator
(`.expect(..)` versus `?`) of the Rust source.  Rust types and the
type/function names carried by attributes are embedded as their token text
(`String`); `syn` string-parsing of attribute values is modelled as total,
since its failures concern Rust token syntax only.

A small operational semantics (`GenExpr.eval`, `evalInits`) interprets the
generated expressions against a row, modelling `tokio_postgres::Row::get`
(panics on failure) and `Row::try_get` (returns `Result`), user conversion
functions, and the `?` operator.
-/

/-- Target type position of a generated extraction: either an explicit Rust
type (its token text) or the inferred type `_` emitted when `from_fn` or
`try_from_fn` is in use. -/
inductive TargetTy where
  | ty (tokens : String)
  | infer
deriving DecidableEq, Repr

/-- One generated Rust expression, one constructor per `quote!` shape in
`generate_from_row` / `generate_try_from_row`:

* `rowGet t c` — `postgres_from_row::tokio_postgres::Row::get::<&str, t>(row, c)`
* `rowTryGetQ t c` — `postgres_from_row::tokio_postgres::Row::try_get::<&str, t>(row, c)?`
* `fromRowCall t` — `<t as postgres_from_row::FromRow>::from_row(row)`
* `tryFromRowCallQ t` — `<t as postgres_from_row::FromRow>::try_from_row(row)?`
* `callFn f e` — `f(e)`
* `callFnExpect f e` — `f(e).expect("could not convert column")`
* `callFnQ f e` — `f(e)?`
* `fromConv ty t e` — `<ty as std::convert::From<t>>::from(e)`
* `tryFromConvExpect ty t e` — `<ty as std::convert::TryFrom<t>>::try_from(e).expect("could not convert column")`
* `tryFromConvQ ty t e` — `<ty as std::convert::TryFrom<t>>::try_from(e)?` -/
inductive GenExpr where
  | rowGet (target : TargetTy) (column : String)
  | rowTryGetQ (target : TargetTy) (column : String)
  | fromRowCall (target : TargetTy)
  | tryFromRowCallQ (target : TargetTy)
  | callFn (fname : String) (arg : GenExpr)
  | callFnExpect (fname : String) (arg : GenExpr)
  | callFnQ (fname : String) (arg : GenExpr)
  | fromConv (fieldTy : String) (target : TargetTy) (arg : GenExpr)
  | tryFromConvExpect (fieldTy : String) (target : TargetTy) (arg : GenExpr)
  | tryFromConvQ (fieldTy : String) (target : TargetTy) (arg : GenExpr)
deriving DecidableEq, Repr

/-- A generated field initializer `#ident: #base` inside `Self { .. }`. -/
structure FieldInit where
  ident : String
  expr : GenExpr
deriving DecidableEq, Repr

/-- One where-clause predicate pushed by `FromRowField::add_predicates`:

* `fromRowBound t` — `t: postgres_from_row::FromRow`
* `fromSqlBound t` — `t: for<'__from_row_lifetime> postgres_from_row::tokio_postgres::types::FromSql<'__from_row_lifetime>`
* `fromBound ty t` — `ty: std::convert::From<t>`
* `tryFromBound ty t` — `ty: std::convert::TryFrom<t>`
* `errFromBound ty t` — `postgres_from_row::tokio_postgres::Error: std::convert::From<<ty as std::convert::TryFrom<t>>::Error>`
* `errDebugBound ty t` — `<ty as std::convert::TryFrom<t>>::Error: std::fmt::Debug` -/
inductive Predicate where
  | fromRowBound (target : String)
  | fromSqlBound (target : String)
  | fromBound (ty : String) (target : String)
  | tryFromBound (ty : String) (target : String)
  | errFromBound (ty : String) (target : String)
  | errDebugBound (ty : String) (target : String)
deriving DecidableEq, Repr

/-- A single field inside of a struct that derives `FromRow`, mirroring the
Rust struct `FromRowField`: the identifier (`Option` as in `syn::Field`,
always present for the named structs darling accepts), the declared type,
and the six `#[from_row(..)]` attributes. -/
structure FromRowField where
  ident : Option String
  ty : String
  flatten : Bool
  try_from : Option String
  «from» : Option String
  rename : Option String
  from_fn : Option String
  try_from_fn : Option String
deriving DecidableEq, Repr

/-- The `self.ident.as_ref().unwrap()` used throughout generation. -/
def FromRowField.identName (f : FromRowField) : String :=
  f.ident.get!

/-- Checks wether this field has a valid combination of attributes,
mirroring `FromRowField::validate`. -/
def FromRowField.validate (f : FromRowField) : Except String Unit := do
  match f.«from», f.from_fn, f.try_from, f.try_from_fn with
  | some _, none, none, none => pure ()
  | none, some _, none, none => pure ()
  | none, none, some _, none => pure ()
  | none, none, none, some _ => pure ()
  | none, none, none, none => pure ()
  | _, _, _, _ =>
    throw ("cant use the from_row conversion attributes together")
  if f.flatten &&
      (f.«from».isSome || f.try_from.isSome || f.from_fn.isSome ||
        f.try_from_fn.isSome) then
    throw ("cant combine flatten with one of the conversion attributes")
  if f.rename.isSome && f.flatten then
    throw ("cant combine flatten with rename")
  pure ()

/-- The type that should be targeted by either `FromRow` (when using
`flatten`) or `FromSql`, mirroring `FromRowField::target_ty`. -/
def FromRowField.target_ty (f : FromRowField) : String :=
  match f.«from» with
  | some s => s
  | none =>
    match f.try_from with
    | some s => s
    | none => f.ty

/-- The name that maps to the actual sql column: by default the rust field
name, overridden by `#[from_row(rename = "..")]`.  Mirrors
`FromRowField::column_name`. -/
def FromRowField.column_name (f : FromRowField) : String :=
  match f.rename with
  | some r => r
  | none => f.identName

/-- Pushes the needed where clause predicates for this field, mirroring
`FromRowField::add_predicates`. -/
def FromRowField.add_predicates (f : FromRowField) (predicates : List Predicate) :
    List Predicate :=
  let target := f.target_ty
  let predicates :=
    if f.try_from_fn.isNone && f.from_fn.isNone then
      predicates ++
        [if f.flatten then Predicate.fromRowBound target
         else Predicate.fromSqlBound target]
    else predicates
  if f.«from».isSome then
    predicates ++ [Predicate.fromBound f.ty target]
  else if f.try_from.isSome then
    predicates ++
      [Predicate.tryFromBound f.ty target,
       Predicate.errFromBound f.ty target,
       Predicate.errDebugBound f.ty target]
  else predicates

/-- The target type written into the extraction call: the field's
`target_ty` unless a conversion function is used, in which case `_`. -/
def FromRowField.genTargetTy (f : FromRowField) : TargetTy :=
  if f.from_fn.isNone && f.try_from_fn.isNone then TargetTy.ty f.target_ty
  else TargetTy.infer

/-- Generate the line needed to retrieve this field from a row when calling
`from_row`, mirroring `FromRowField::generate_from_row`. -/
def FromRowField.generate_from_row (f : FromRowField) : FieldInit :=
  let target_ty := f.genTargetTy
  let base : GenExpr :=
    if f.flatten then GenExpr.fromRowCall target_ty
    else GenExpr.rowGet target_ty f.column_name
  let base : GenExpr :=
    match f.from_fn with
    | some fn => GenExpr.callFn fn base
    | none =>
      match f.try_from_fn with
      | some fn => GenExpr.callFnExpect fn base
      | none =>
        if f.«from».isSome then GenExpr.fromConv f.ty target_ty base
        else if f.try_from.isSome then
          GenExpr.tryFromConvExpect f.ty target_ty base
        else base
  ⟨f.identName, base⟩

/-- Generate the line needed to retrieve this field from a row when calling
`try_from_row`, mirroring `FromRowField::generate_try_from_row`. -/
def FromRowField.generate_try_from_row (f : FromRowField) : FieldInit :=
  let target_ty := f.genTargetTy
  let base : GenExpr :=
    if f.flatten then GenExpr.tryFromRowCallQ target_ty
    else GenExpr.rowTryGetQ target_ty f.column_name
  let base : GenExpr :=
    match f.from_fn with
    | some fn => GenExpr.callFn fn base
    | none =>
      match f.try_from_fn with
      | some fn => GenExpr.callFnQ fn base
      | none =>
        if f.«from».isSome then GenExpr.fromConv f.ty target_ty base
        else if f.try_from.isSome then
          GenExpr.tryFromConvQ f.ty target_ty base
        else base
  ⟨f.identName, base⟩

/-- Return type of a generated function: `Self` for `from_row`,
`std::result::Result<Self, postgres_from_row::tokio_postgres::Error>` for
`try_from_row`. -/
inductive RetTy where
  | selfTy
  | resultSelfDbError
deriving DecidableEq, Repr

/-- One function emitted inside the generated `impl FromRow` block: its
name, its return type, and the field initializers of the struct literal it
builds. -/
structure GenFn where
  name : String
  ret : RetTy
  body : List FieldInit
deriving DecidableEq, Repr

/-- The generated `impl postgres_from_row::FromRow for #ident` block. -/
structure FromRowImpl where
  ident : String
  generics : String
  predicates : List Predicate
  fns : List GenFn
deriving DecidableEq, Repr

/-- Main struct for deriving `FromRow` for a struct, mirroring
`DeriveFromRow` (darling only accepts named structs, so `data` is the field
list). Generics are kept as opaque token text. -/
structure DeriveFromRow where
  ident : String
  generics : String
  data : List FromRowField
deriving DecidableEq, Repr

/-- Provides this struct's fields, mirroring `DeriveFromRow::fields`. -/
def DeriveFromRow.fields (d : DeriveFromRow) : List FromRowField :=
  d.data

/-- The loop body of `DeriveFromRow::validate`: validate each field in
turn, propagating the first failure (the `?` operator). -/
def validateFields : List FromRowField → Except String Unit
  | [] => Except.ok ()
  | f :: rest =>
    match f.validate with
    | Except.ok _ => validateFields rest
    | Except.error e => Except.error e

/-- Validates all fields, mirroring `DeriveFromRow::validate`. -/
def DeriveFromRow.validate (d : DeriveFromRow) : Except String Unit :=
  validateFields d.fields

/-- Generates the additional where clause predicates needed for the fields
in this struct, mirroring `DeriveFromRow::predicates`. -/
def DeriveFromRow.predicates (d : DeriveFromRow) : List Predicate :=
  d.fields.foldl (fun acc f => f.add_predicates acc) []

/-- Generate the `FromRow` implementation, mirroring
`DeriveFromRow::generate`: validate every field, then emit the impl block
with exactly the two functions `from_row` and `try_from_row`, whose bodies
hold one initializer per field in declaration order. -/
def DeriveFromRow.generate (d : DeriveFromRow) : Except String FromRowImpl :=
  match d.validate with
  | Except.error e => Except.error e
  | Except.ok _ =>
    Except.ok
      { ident := d.ident
        generics := d.generics
        predicates := d.predicates
        fns :=
          [⟨"from_row", RetTy.selfTy,
              d.fields.map FromRowField.generate_from_row⟩,
           ⟨"try_from_row", RetTy.resultSelfDbError,
              d.fields.map FromRowField.generate_try_from_row⟩] }

/-- Fallible entry point for generating a `FromRow` implementation,
mirroring `try_derive_from_row` (darling parsing of the `DeriveInput` is
the identity on our already-structured input). -/
def try_derive_from_row (input : DeriveFromRow) : Except String FromRowImpl :=
  input.generate

/-!
## Operational semantics of the generated code

Database values are modelled abstractly as `Nat`.  A `Row` is a list of
named raw columns.  `Sem` supplies the meaning of everything the generated
code calls out to: `FromSql` decoding (which can fail), the user conversion
functions named by `from_fn` / `try_from_fn`, the `From` / `TryFrom`
instances named by `from` / `try_from`, and the `FromRow` implementation of
a flattened nested type.  Infallible Rust signatures are modelled by total
functions, fallible ones by `Except`, and a possible panic by `Option`
(`none` = panic), matching the Rust types: `from_row` returns `Self` (so it
can panic but never return an error) and `try_from_row` returns a
`Result`. -/

/-- A database error, as carried by `tokio_postgres::Error`. -/
inductive DbError where
  | columnNotFound (col : String)
  | wrongType (col : String)
  | convFailed (tag : String)
deriving DecidableEq, Repr

/-- A database row: named raw column values. -/
structure Row where
  cols : List (String × Nat)
deriving DecidableEq, Repr

/-- Interpretation of the external world the generated code calls into. -/
structure Sem where
  fromSql : TargetTy → Nat → Option Nat
  fns : String → Nat → Nat
  tryFns : String → Nat → Except DbError Nat
  fromConv : String → TargetTy → Nat → Nat
  tryFromConv : String → TargetTy → Nat → Except DbError Nat
  nested : TargetTy → Row → Option Nat
  nestedTry : TargetTy → Row → Except DbError Nat

/-- `Row::try_get::<&str, target>(row, col)`: error if the column is absent
or its `FromSql` decoding at `target` fails. -/
def Row.try_get (sem : Sem) (row : Row) (target : TargetTy) (col : String) :
    Except DbError Nat :=
  match row.cols.find? (fun p => p.1 == col) with
  | none => Except.error (DbError.columnNotFound col)
  | some p =>
    match sem.fromSql target p.2 with
    | none => Except.error (DbError.wrongType col)
    | some v => Except.ok v

/-- Outcome of evaluating one generated expression: a value, a database
error propagated by `?`, or a panic. -/
inductive Outcome where
  | ok (v : Nat)
  | err (e : DbError)
  | panicked
deriving DecidableEq, Repr

/-- `true` exactly on `Outcome.err`. -/
def Outcome.isErr : Outcome → Bool
  | .err _ => true
  | _ => false

/-- `true` exactly on `Outcome.panicked`. -/
def Outcome.isPanic : Outcome → Bool
  | .panicked => true
  | _ => false

/-- Evaluate a generated expression against a row.  `Row::get` is
`try_get` with a panic on failure (as in tokio-postgres); `?` turns an
inner `Err` into `Outcome.err`; `.expect(..)` turns it into a panic. -/
def GenExpr.eval (sem : Sem) (row : Row) : GenExpr → Outcome
  | .rowGet t c =>
    match Row.try_get sem row t c with
    | .ok v => .ok v
    | .error _ => .panicked
  | .rowTryGetQ t c =>
    match Row.try_get sem row t c with
    | .ok v => .ok v
    | .error e => .err e
  | .fromRowCall t =>
    match sem.nested t row with
    | some v => .ok v
    | none => .panicked
  | .tryFromRowCallQ t =>
    match sem.nestedTry t row with
    | .ok v => .ok v
    | .error e => .err e
  | .callFn f a =>
    match a.eval sem row with
    | .ok v => .ok (sem.fns f v)
    | o => o
  | .callFnExpect f a =>
    match a.eval sem row with
    | .ok v =>
      match sem.tryFns f v with
      | .ok w => .ok w
      | .error _ => .panicked
    | o => o
  | .callFnQ f a =>
    match a.eval sem row with
    | .ok v =>
      match sem.tryFns f v with
      | .ok w => .ok w
      | .error e => .err e
    | o => o
  | .fromConv ft t a =>
    match a.eval sem row with
    | .ok v => .ok (sem.fromConv ft t v)
    | o => o
  | .tryFromConvExpect ft t a =>
    match a.eval sem row with
    | .ok v =>
      match sem.tryFromConv ft t v with
      | .ok w => .ok w
      | .error _ => .panicked
    | o => o
  | .tryFromConvQ ft t a =>
    match a.eval sem row with
    | .ok v =>
      match sem.tryFromConv ft t v with
      | .ok w => .ok w
      | .error e => .err e
    | o => o

/-- Outcome of evaluating a whole struct literal `Self { .. }`: either all
fields, in order, or the first error / panic, with nothing constructed. -/
inductive StructOutcome where
  | ok (fields : List (String × Nat))
  | err (e : DbError)
  | panicked
deriving DecidableEq, Repr

/-- `true` exactly on `StructOutcome.panicked`. -/
def StructOutcome.isPanic : StructOutcome → Bool
  | .panicked => true
  | _ => false

/-- Evaluate the field initializers of a struct literal left to right; the
first error or panic aborts the construction. -/
def evalInits (sem : Sem) (row : Row) : List FieldInit → StructOutcome
  | [] => .ok []
  | i :: rest =>
    match i.expr.eval sem row with
    | .ok v =>
      match evalInits sem row rest with
      | .ok l => .ok ((i.ident, v) :: l)
      | o => o
    | .err e => .err e
    | .panicked => .panicked

/-!
## Static analyses of generated expressions

Helper functions used to state the claims: the columns an expression reads,
the extraction at its core, and whether it can ever produce an error or a
panic. -/

/-- The sql column names read by a generated expression. -/
def GenExpr.columnsRead : GenExpr → List String
  | .rowGet _ c => [c]
  | .rowTryGetQ _ c => [c]
  | .fromRowCall _ => []
  | .tryFromRowCallQ _ => []
  | .callFn _ a => a.columnsRead
  | .callFnExpect _ a => a.columnsRead
  | .callFnQ _ a => a.columnsRead
  | .fromConv _ _ a => a.columnsRead
  | .tryFromConvExpect _ _ a => a.columnsRead
  | .tryFromConvQ _ _ a => a.columnsRead

/-- Strip the conversion wrappers off a generated expression, exposing the
underlying extraction (`rowGet`, `rowTryGetQ`, `fromRowCall` or
`tryFromRowCallQ`). -/
def GenExpr.baseOf : GenExpr → GenExpr
  | .callFn _ a => a.baseOf
  | .callFnExpect _ a => a.baseOf
  | .callFnQ _ a => a.baseOf
  | .fromConv _ _ a => a.baseOf
  | .tryFromConvExpect _ _ a => a.baseOf
  | .tryFromConvQ _ _ a => a.baseOf
  | e => e

/-- Whether an expression contains any construct that can yield
`Outcome.err` (a `?` on a fallible call). -/
def GenExpr.canErr : GenExpr → Bool
  | .rowGet _ _ => false
  | .rowTryGetQ _ _ => true
  | .fromRowCall _ => false
  | .tryFromRowCallQ _ => true
  | .callFn _ a => a.canErr
  | .callFnExpect _ a => a.canErr
  | .callFnQ _ _ => true
  | .fromConv _ _ a => a.canErr
  | .tryFromConvExpect _ _ a => a.canErr
  | .tryFromConvQ _ _ _ => true

/-- Whether an expression contains any construct that can panic
(`Row::get`, a nested `from_row`, or `.expect(..)`). -/
def GenExpr.canPanic : GenExpr → Bool
  | .rowGet _ _ => true
  | .rowTryGetQ _ _ => false
  | .fromRowCall _ => true
  | .tryFromRowCallQ _ => false
  | .callFn _ a => a.canPanic
  | .callFnExpect _ _ => true
  | .callFnQ _ a => a.canPanic
  | .fromConv _ _ a => a.canPanic
  | .tryFromConvExpect _ _ _ => true
  | .tryFromConvQ _ _ a => a.canPanic

/-!
## Validity of attribute combinations

`convCount` and `invalidCombo` transcribe the condition under which
`FromRowField::validate` rejects a field: more than one of the four
conversion directives, or `flatten` combined with a conversion directive,
or `flatten` combined with `rename`. -/

/-- How many of the four conversion directives are set on a field. -/
def convCount (f : FromRowField) : Nat :=
  (if f.«from».isSome then 1 else 0) + (if f.from_fn.isSome then 1 else 0) +
    (if f.try_from.isSome then 1 else 0) +
    (if f.try_from_fn.isSome then 1 else 0)

/-- The invalid attribute combinations: two or more conversion directives,
`flatten` with a conversion directive, or `flatten` with `rename`. -/
def invalidCombo (f : FromRowField) : Bool :=
  decide (2 ≤ convCount f) || (f.flatten && decide (1 ≤ convCount f)) ||
    (f.flatten && f.rename.isSome)

/-!
## Concrete example inputs

Executable sample fields, structs and a trivial semantics, used by the
witness theorems to evaluate every definition at a concrete input. -/

/-- A trivial interpretation of the external world: decoding and all
conversions succeed and are the identity; nested mappings return 0. -/
def semTrivial : Sem where
  fromSql := fun _ v => some v
  fns := fun _ v => v
  tryFns := fun _ v => Except.ok v
  fromConv := fun _ _ v => v
  tryFromConv := fun _ _ v => Except.ok v
  nested := fun _ _ => some 0
  nestedTry := fun _ _ => Except.ok 0

/-- A row with no columns. -/
def rowEmpty : Row := ⟨[]⟩

/-- A row holding one column `json` with raw value 7. -/
def rowJson : Row := ⟨[("json", 7)]⟩

/-- A row holding one column `n` with raw value 5. -/
def rowN : Row := ⟨[("n", 5)]⟩

/-- An interpretation whose fallible conversions always fail: decoding
succeeds, but every `try_from_fn` function and every `TryFrom` instance
returns an error. -/
def semFailConv : Sem where
  fromSql := fun _ v => some v
  fns := fun _ v => v
  tryFns := fun _ _ => Except.error (DbError.convFailed "tfn")
  fromConv := fun _ _ v => v
  tryFromConv := fun _ _ _ => Except.error (DbError.convFailed "tf")
  nested := fun _ _ => some 0
  nestedTry := fun _ _ => Except.ok 0

/-- Plain field `a: i32` with no attributes. -/
def fPlain : FromRowField :=
  { ident := some "a", ty := "i32", flatten := false, try_from := none,
    «from» := none, rename := none, from_fn := none, try_from_fn := none }

/-- Plain field `b: String` with no attributes. -/
def fPlainB : FromRowField :=
  { ident := some "b", ty := "String", flatten := false, try_from := none,
    «from» := none, rename := none, from_fn := none, try_from_fn := none }

/-- Field `user: User` with `#[from_row(flatten)]`. -/
def fFlatten : FromRowField :=
  { ident := some "user", ty := "User", flatten := true, try_from := none,
    «from» := none, rename := none, from_fn := none, try_from_fn := none }

/-- Field `a: i32` with `#[from_row(rename = "b")]`. -/
def fRenamed : FromRowField :=
  { ident := some "a", ty := "i32", flatten := false, try_from := none,
    «from» := none, rename := some "b", from_fn := none, try_from_fn := none }

/-- Field `json: Map` with `#[from_row(from_fn = "json_fn")]`. -/
def fFromFn : FromRowField :=
  { ident := some "json", ty := "Map", flatten := false, try_from := none,
    «from» := none, rename := none, from_fn := some "json_fn",
    try_from_fn := none }

/-- Field `json: Map` with `#[from_row(try_from_fn = "json_fn")]`. -/
def fTryFromFn : FromRowField :=
  { ident := some "json", ty := "Map", flatten := false, try_from := none,
    «from» := none, rename := none, from_fn := none,
    try_from_fn := some "json_fn" }

/-- Field `n: i64` with `#[from_row(from = "i32")]`. -/
def fFrom : FromRowField :=
  { ident := some "n", ty := "i64", flatten := false, try_from := none,
    «from» := some "i32", rename := none, from_fn := none,
    try_from_fn := none }

/-- Field `n: u32` with `#[from_row(try_from = "i64")]`. -/
def fTryFrom : FromRowField :=
  { ident := some "n", ty := "u32", flatten := false,
    try_from := some "i64", «from» := none, rename := none, from_fn := none,
    try_from_fn := none }

/-- Invalid field: `from` and `from_fn` set together. -/
def fBad : FromRowField :=
  { ident := some "x", ty := "i32", flatten := false, try_from := none,
    «from» := some "i64", rename := none, from_fn := some "f",
    try_from_fn := none }

/-- A one-field struct declaration `struct Todo { a: i32 }`. -/
def dTodo : DeriveFromRow :=
  { ident := "Todo", generics := "", data := [fPlain] }

/-- A two-field struct declaration `struct Pair { a: i32, b: String }`. -/
def dPair : DeriveFromRow :=
  { ident := "Pair", generics := "", data := [fPlain, fPlainB] }

/-- A struct declaration with an invalid field. -/
def dBad : DeriveFromRow :=
  { ident := "Bad", generics := "", data := [fPlain, fBad] }

/-- The implementation generated for `dTodo`. -/
def implTodo : FromRowImpl :=
  { ident := "Todo"
    generics := ""
    predicates := [Predicate.fromSqlBound "i32"]
    fns :=
      [⟨"from_row", RetTy.selfTy,
          [⟨"a", GenExpr.rowGet (TargetTy.ty "i32") "a"⟩]⟩,
       ⟨"try_from_row", RetTy.resultSelfDbError,
          [⟨"a", GenExpr.rowTryGetQ (TargetTy.ty "i32") "a"⟩]⟩] }

/-- The implementation generated for `dPair`. -/
def implPair : FromRowImpl :=
  { ident := "Pair"
    generics := ""
    predicates :=
      [Predicate.fromSqlBound "i32", Predicate.fromSqlBound "String"]
    fns :=
      [⟨"from_row", RetTy.selfTy,
          [⟨"a", GenExpr.rowGet (TargetTy.ty "i32") "a"⟩,
           ⟨"b", GenExpr.rowGet (TargetTy.ty "String") "b"⟩]⟩,
       ⟨"try_from_row", RetTy.resultSelfDbError,
          [⟨"a", GenExpr.rowTryGetQ (TargetTy.ty "i32") "a"⟩,
           ⟨"b", GenExpr.rowTryGetQ (TargetTy.ty "String") "b"⟩]⟩] }

/-- Field descriptor exactly as the spec words it: an identifier, a
declared type, an optional column rename, an optional flatten flag, and a
single optional conversion function reference.  Modelled from the spec
for comparison with the richer `FromRowField` the code actually parses. -/
structure SpecFieldDescriptor where
  ident : Option String
  ty : String
  rename : Option String
  flatten : Bool
  convRef : Option String
deriving DecidableEq, Repr

/-- Project a parsed field onto the spec's five-component descriptor; the
conversion reference is whichever conversion attribute is present. -/
def specDescriptorOf (f : FromRowField) : SpecFieldDescriptor :=
  { ident := f.ident, ty := f.ty, rename := f.rename, flatten := f.flatten,
    convRef := f.from_fn <|> f.try_from_fn <|> f.«from» <|> f.try_from }

/-- A second descriptor, componentwise equal to `fPlain`. -/
def fPlainTwin : FromRowField :=
  { ident := some "a", ty := "i32", flatten := false, try_from := none,
    «from» := none, rename := none, from_fn := none, try_from_fn := none }

theorem validate_ok_iff (f : FromRowField) :
    f.validate = Except.ok () ↔ invalidCombo f = false := by
  rcases f with ⟨i, t, fl, tf, fr, rn, ffn, tffn⟩
  rcases fr with _ | a <;> rcases ffn with _ | b <;> rcases tf with _ | c <;>
    rcases tffn with _ | d <;> rcases fl <;> rcases rn with _ | r <;>
      simp [FromRowField.validate, invalidCombo, convCount, pure, Except.pure,
        Bind.bind, Except.bind, throw, throwThe, MonadExceptOf.throw]

theorem validate_ok_exclusive (f : FromRowField) (h : f.validate = Except.ok ()) :
    (f.flatten = true → f.«from» = none ∧ f.try_from = none ∧ f.from_fn = none ∧
      f.try_from_fn = none ∧ f.rename = none) ∧
    (f.from_fn.isSome = true → f.«from» = none ∧ f.try_from = none ∧
      f.try_from_fn = none ∧ f.flatten = false) ∧
    (f.try_from_fn.isSome = true → f.«from» = none ∧ f.try_from = none ∧
      f.from_fn = none ∧ f.flatten = false) ∧
    (f.«from».isSome = true → f.from_fn = none ∧ f.try_from = none ∧
      f.try_from_fn = none ∧ f.flatten = false) ∧
    (f.try_from.isSome = true → f.«from» = none ∧ f.from_fn = none ∧
      f.try_from_fn = none ∧ f.flatten = false) := by
  rcases f with ⟨i, t, fl, tf, fr, rn, ffn, tffn⟩
  rcases fr with _ | a <;> rcases ffn with _ | b <;> rcases tf with _ | c <;>
    rcases tffn with _ | d <;> rcases fl <;> rcases rn with _ | r <;>
      simp_all [FromRowField.validate, pure, Except.pure, Bind.bind, Except.bind,
        throw, throwThe, MonadExceptOf.throw]

theorem genFrom_columnsRead (f : FromRowField) :
    (f.generate_from_row).expr.columnsRead =
      if f.flatten then [] else [f.column_name] := by
  cases hb : f.from_fn <;> cases hd : f.try_from_fn <;>
    cases hfr : f.«from».isSome <;> cases htf : f.try_from.isSome <;>
      cases hfl : f.flatten <;>
        simp [FromRowField.generate_from_row, hb, hd, hfr, htf, hfl,
          GenExpr.columnsRead]

theorem genTry_columnsRead (f : FromRowField) :
    (f.generate_try_from_row).expr.columnsRead =
      if f.flatten then [] else [f.column_name] := by
  cases hb : f.from_fn <;> cases hd : f.try_from_fn <;>
    cases hfr : f.«from».isSome <;> cases htf : f.try_from.isSome <;>
      cases hfl : f.flatten <;>
        simp [FromRowField.generate_try_from_row, hb, hd, hfr, htf, hfl,
          GenExpr.columnsRead]

theorem genFrom_baseOf (f : FromRowField) :
    (f.generate_from_row).expr.baseOf =
      if f.flatten then GenExpr.fromRowCall f.genTargetTy
      else GenExpr.rowGet f.genTargetTy f.column_name := by
  cases hb : f.from_fn <;> cases hd : f.try_from_fn <;>
    cases hfr : f.«from».isSome <;> cases htf : f.try_from.isSome <;>
      cases hfl : f.flatten <;>
        simp [FromRowField.generate_from_row, FromRowField.genTargetTy,
          hb, hd, hfr, htf, hfl, GenExpr.baseOf]

theorem genTry_baseOf (f : FromRowField) :
    (f.generate_try_from_row).expr.baseOf =
      if f.flatten then GenExpr.tryFromRowCallQ f.genTargetTy
      else GenExpr.rowTryGetQ f.genTargetTy f.column_name := by
  cases hb : f.from_fn <;> cases hd : f.try_from_fn <;>
    cases hfr : f.«from».isSome <;> cases htf : f.try_from.isSome <;>
      cases hfl : f.flatten <;>
        simp [FromRowField.generate_try_from_row, FromRowField.genTargetTy,
          hb, hd, hfr, htf, hfl, GenExpr.baseOf]

theorem genFrom_canErr (f : FromRowField) :
    (f.generate_from_row).expr.canErr = false := by
  cases hb : f.from_fn <;> cases hd : f.try_from_fn <;>
    cases hfr : f.«from».isSome <;> cases htf : f.try_from.isSome <;>
      cases hfl : f.flatten <;>
        simp [FromRowField.generate_from_row, hb, hd, hfr, htf, hfl,
          GenExpr.canErr]

theorem genTry_canPanic (f : FromRowField) :
    (f.generate_try_from_row).expr.canPanic = false := by
  cases hb : f.from_fn <;> cases hd : f.try_from_fn <;>
    cases hfr : f.«from».isSome <;> cases htf : f.try_from.isSome <;>
      cases hfl : f.flatten <;>
        simp [FromRowField.generate_try_from_row, hb, hd, hfr, htf, hfl,
          GenExpr.canPanic]

theorem eval_panicked_of_base (sem : Sem) (row : Row) :
    ∀ e : GenExpr, (e.baseOf).eval sem row = Outcome.panicked →
      e.eval sem row = Outcome.panicked := by
  intro e
  induction e with
  | rowGet t c => intro h; exact h
  | rowTryGetQ t c => intro h; exact h
  | fromRowCall t => intro h; exact h
  | tryFromRowCallQ t => intro h; exact h
  | callFn f a ih =>
    intro h
    simp only [GenExpr.baseOf] at h
    have ha := ih h
    simp [GenExpr.eval, ha]
  | callFnExpect f a ih =>
    intro h
    simp only [GenExpr.baseOf] at h
    have ha := ih h
    simp [GenExpr.eval, ha]
  | callFnQ f a ih =>
    intro h
    simp only [GenExpr.baseOf] at h
    have ha := ih h
    simp [GenExpr.eval, ha]
  | fromConv ft t a ih =>
    intro h
    simp only [GenExpr.baseOf] at h
    have ha := ih h
    simp [GenExpr.eval, ha]
  | tryFromConvExpect ft t a ih =>
    intro h
    simp only [GenExpr.baseOf] at h
    have ha := ih h
    simp [GenExpr.eval, ha]
  | tryFromConvQ ft t a ih =>
    intro h
    simp only [GenExpr.baseOf] at h
    have ha := ih h
    simp [GenExpr.eval, ha]

theorem eval_err_of_base (sem : Sem) (row : Row) (x : DbError) :
    ∀ e : GenExpr, (e.baseOf).eval sem row = Outcome.err x →
      e.eval sem row = Outcome.err x := by
  intro e
  induction e with
  | rowGet t c => intro h; exact h
  | rowTryGetQ t c => intro h; exact h
  | fromRowCall t => intro h; exact h
  | tryFromRowCallQ t => intro h; exact h
  | callFn f a ih =>
    intro h
    simp only [GenExpr.baseOf] at h
    have ha := ih h
    simp [GenExpr.eval, ha]
  | callFnExpect f a ih =>
    intro h
    simp only [GenExpr.baseOf] at h
    have ha := ih h
    simp [GenExpr.eval, ha]
  | callFnQ f a ih =>
    intro h
    simp only [GenExpr.baseOf] at h
    have ha := ih h
    simp [GenExpr.eval, ha]
  | fromConv ft t a ih =>
    intro h
    simp only [GenExpr.baseOf] at h
    have ha := ih h
    simp [GenExpr.eval, ha]
  | tryFromConvExpect ft t a ih =>
    intro h
    simp only [GenExpr.baseOf] at h
    have ha := ih h
    simp [GenExpr.eval, ha]
  | tryFromConvQ ft t a ih =>
    intro h
    simp only [GenExpr.baseOf] at h
    have ha := ih h
    simp [GenExpr.eval, ha]

theorem eval_isErr_of_canErr (sem : Sem) (row : Row) :
    ∀ e : GenExpr, e.canErr = false → (e.eval sem row).isErr = false := by
  intro e
  induction e with
  | rowGet t c =>
    intro _
    simp only [GenExpr.eval]
    split <;> simp [Outcome.isErr]
  | rowTryGetQ t c => intro h; simp [GenExpr.canErr] at h
  | fromRowCall t =>
    intro _
    simp only [GenExpr.eval]
    split <;> simp [Outcome.isErr]
  | tryFromRowCallQ t => intro h; simp [GenExpr.canErr] at h
  | callFn f a ih =>
    intro h
    simp only [GenExpr.canErr] at h
    simp only [GenExpr.eval]
    cases ha : a.eval sem row <;>
      simp_all [Outcome.isErr]
  | callFnExpect f a ih =>
    intro h
    simp only [GenExpr.canErr] at h
    have hie := ih h
    simp only [GenExpr.eval]
    cases ha : a.eval sem row with
    | ok v => cases htf : sem.tryFns f v <;> simp [htf, Outcome.isErr]
    | err e => rw [ha] at hie; simp [Outcome.isErr] at hie
    | panicked => simp [Outcome.isErr]
  | callFnQ f a ih => intro h; simp [GenExpr.canErr] at h
  | fromConv ft t a ih =>
    intro h
    simp only [GenExpr.canErr] at h
    simp only [GenExpr.eval]
    cases ha : a.eval sem row <;> simp_all [Outcome.isErr]
  | tryFromConvExpect ft t a ih =>
    intro h
    simp only [GenExpr.canErr] at h
    have hie := ih h
    simp only [GenExpr.eval]
    cases ha : a.eval sem row with
    | ok v => cases htf : sem.tryFromConv ft t v <;> simp [htf, Outcome.isErr]
    | err e => rw [ha] at hie; simp [Outcome.isErr] at hie
    | panicked => simp [Outcome.isErr]
  | tryFromConvQ ft t a ih => intro h; simp [GenExpr.canErr] at h

theorem eval_isPanic_of_canPanic (sem : Sem) (row : Row) :
    ∀ e : GenExpr, e.canPanic = false → (e.eval sem row).isPanic = false := by
  intro e
  induction e with
  | rowGet t c => intro h; simp [GenExpr.canPanic] at h
  | rowTryGetQ t c =>
    intro _
    simp only [GenExpr.eval]
    split <;> simp [Outcome.isPanic]
  | fromRowCall t => intro h; simp [GenExpr.canPanic] at h
  | tryFromRowCallQ t =>
    intro _
    simp only [GenExpr.eval]
    split <;> simp [Outcome.isPanic]
  | callFn f a ih =>
    intro h
    simp only [GenExpr.canPanic] at h
    simp only [GenExpr.eval]
    cases ha : a.eval sem row <;> simp_all [Outcome.isPanic]
  | callFnExpect f a ih => intro h; simp [GenExpr.canPanic] at h
  | callFnQ f a ih =>
    intro h
    simp only [GenExpr.canPanic] at h
    have hip := ih h
    simp only [GenExpr.eval]
    cases ha : a.eval sem row with
    | ok v => cases htf : sem.tryFns f v <;> simp [htf, Outcome.isPanic]
    | err e => simp [Outcome.isPanic]
    | panicked => rw [ha] at hip; simp [Outcome.isPanic] at hip
  | fromConv ft t a ih =>
    intro h
    simp only [GenExpr.canPanic] at h
    simp only [GenExpr.eval]
    cases ha : a.eval sem row <;> simp_all [Outcome.isPanic]
  | tryFromConvExpect ft t a ih => intro h; simp [GenExpr.canPanic] at h
  | tryFromConvQ ft t a ih =>
    intro h
    simp only [GenExpr.canPanic] at h
    have hip := ih h
    simp only [GenExpr.eval]
    cases ha : a.eval sem row with
    | ok v => cases htf : sem.tryFromConv ft t v <;> simp [htf, Outcome.isPanic]
    | err e => simp [Outcome.isPanic]
    | panicked => rw [ha] at hip; simp [Outcome.isPanic] at hip

theorem evalInits_isPanic (sem : Sem) (row : Row) :
    ∀ inits : List FieldInit,
      (∀ i ∈ inits, (i.expr.eval sem row).isPanic = false) →
      (evalInits sem row inits).isPanic = false := by
  intro inits
  induction inits with
  | nil => intro _; simp [evalInits, StructOutcome.isPanic]
  | cons i rest ih =>
    intro h
    have hi := h i (List.mem_cons_self i rest)
    have hrest := ih fun j hj => h j (List.mem_cons_of_mem i hj)
    simp only [evalInits]
    cases hei : i.expr.eval sem row with
    | ok v =>
      cases her : evalInits sem row rest <;>
        simp_all [StructOutcome.isPanic]
    | err e => simp [StructOutcome.isPanic]
    | panicked => simp_all [Outcome.isPanic]

theorem evalInits_ok_idents (sem : Sem) (row : Row) :
    ∀ (inits : List FieldInit) (vs : List (String × Nat)),
      evalInits sem row inits = StructOutcome.ok vs →
      vs.map Prod.fst = inits.map FieldInit.ident := by
  intro inits
  induction inits with
  | nil => intro vs h; simp [evalInits] at h; simp [← h]
  | cons i rest ih =>
    intro vs h
    simp only [evalInits] at h
    cases hei : i.expr.eval sem row <;> rw [hei] at h
    case ok v =>
      cases her : evalInits sem row rest <;> rw [her] at h
      case ok l =>
        simp only [StructOutcome.ok.injEq] at h
        rw [← h]
        simp [ih l her]
      case err e => simp at h
      case panicked => simp at h
    case err e => simp at h
    case panicked => simp at h

theorem validateFields_ok_iff (l : List FromRowField) :
    validateFields l = Except.ok () ↔ ∀ f ∈ l, f.validate = Except.ok () := by
  induction l with
  | nil => simp [validateFields]
  | cons f rest ih =>
    simp only [validateFields]
    cases hv : f.validate with
    | ok u =>
      cases u
      simp only [ih, List.mem_cons]
      constructor
      · intro h g hg
        rcases hg with hg | hg
        · subst hg; exact hv
        · exact h g hg
      · intro h g hg
        exact h g (Or.inr hg)
    | error msg =>
      constructor
      · intro h; exact Except.noConfusion h
      · intro h
        have := h f (List.mem_cons_self f rest)
        rw [hv] at this
        exact Except.noConfusion this

/-- C1: For every valid field, the generated code follows the two-way rule:
a `flatten` field is populated, in both operations, by recursively invoking
the nested type's `FromRow` mapping on the same row and no column name is
read for it; any other field reads its named column from the row (`get` in
`from_row`, `try_get` in `try_from_row`) at the core of its initializer —
possibly under the conversion directive's wrapper — and that named column
is the only column it reads. -/
theorem C1_flatten_or_named_column (f : FromRowField)
    (h : f.validate = Except.ok ()) :
    (f.flatten = true →
      (f.generate_from_row).expr = GenExpr.fromRowCall (TargetTy.ty f.ty) ∧
      (f.generate_try_from_row).expr =
        GenExpr.tryFromRowCallQ (TargetTy.ty f.ty) ∧
      (f.generate_from_row).expr.columnsRead = [] ∧
      (f.generate_try_from_row).expr.columnsRead = []) ∧
    (f.flatten = false →
      (f.generate_from_row).expr.baseOf =
        GenExpr.rowGet f.genTargetTy f.column_name ∧
      (f.generate_try_from_row).expr.baseOf =
        GenExpr.rowTryGetQ f.genTargetTy f.column_name ∧
      (f.generate_from_row).expr.columnsRead = [f.column_name] ∧
      (f.generate_try_from_row).expr.columnsRead = [f.column_name]) := by
  constructor
  · intro hfl
    obtain ⟨hfr, htf, hfn, htfn, hrn⟩ := (validate_ok_exclusive f h).1 hfl
    refine ⟨?_, ?_, ?_, ?_⟩
    · simp [FromRowField.generate_from_row, FromRowField.genTargetTy,
        FromRowField.target_ty, hfl, hfr, htf, hfn, htfn]
    · simp [FromRowField.generate_try_from_row, FromRowField.genTargetTy,
        FromRowField.target_ty, hfl, hfr, htf, hfn, htfn]
    · rw [genFrom_columnsRead]; simp [hfl]
    · rw [genTry_columnsRead]; simp [hfl]
  · intro hfl
    refine ⟨?_, ?_, ?_, ?_⟩
    · rw [genFrom_baseOf]; simp [hfl]
    · rw [genTry_baseOf]; simp [hfl]
    · rw [genFrom_columnsRead]; simp [hfl]
    · rw [genTry_columnsRead]; simp [hfl]

/-- Witness for C1 at the concrete flatten field `fFlatten` and the
concrete renamed field `fRenamed`. -/
theorem C1_witness :
    ((fFlatten.generate_from_row).expr =
        GenExpr.fromRowCall (TargetTy.ty "User") ∧
      (fFlatten.generate_try_from_row).expr =
        GenExpr.tryFromRowCallQ (TargetTy.ty "User")) ∧
    ((fRenamed.generate_from_row).expr.columnsRead = ["b"] ∧
      (fRenamed.generate_try_from_row).expr.columnsRead = ["b"]) :=
  ⟨⟨((C1_flatten_or_named_column fFlatten rfl).1 rfl).1,
    ((C1_flatten_or_named_column fFlatten rfl).1 rfl).2.1⟩,
   ⟨((C1_flatten_or_named_column fRenamed rfl).2 rfl).2.2.1,
    ((C1_flatten_or_named_column fRenamed rfl).2 rfl).2.2.2⟩⟩

/-- C2: In the generated code, `from_row` never returns an error (its only
failure mode is a panic) and `try_from_row` never panics (its only failure
mode is a returned error); for every column-reading field — whatever its
conversion directive — when the named column is absent or its decoding
fails, `from_row` panics while `try_from_row` propagates exactly that
error with `?`; when a fallible conversion (`try_from_fn` function or
`TryFrom` instance under `try_from`) fails on the extracted value,
`from_row` panics (`.expect`) while `try_from_row` returns exactly that
error (`?`); and a `try_from_row` body performs no partial construction —
a constructed result carries one value per initializer, in order, and any
failure aborts with no fields built. -/
theorem C2_panic_versus_propagation :
    (∀ (sem : Sem) (row : Row) (f : FromRowField),
      ((f.generate_from_row).expr.eval sem row).isErr = false) ∧
    (∀ (sem : Sem) (row : Row) (f : FromRowField),
      ((f.generate_try_from_row).expr.eval sem row).isPanic = false) ∧
    (∀ (sem : Sem) (row : Row) (f : FromRowField) (e : DbError),
      f.flatten = false →
      Row.try_get sem row f.genTargetTy f.column_name = Except.error e →
      (f.generate_from_row).expr.eval sem row = Outcome.panicked ∧
      (f.generate_try_from_row).expr.eval sem row = Outcome.err e) ∧
    (∀ (sem : Sem) (row : Row) (f : FromRowField) (fn : String) (v : Nat)
        (e : DbError),
      f.validate = Except.ok () → f.try_from_fn = some fn →
      Row.try_get sem row TargetTy.infer f.column_name = Except.ok v →
      sem.tryFns fn v = Except.error e →
      (f.generate_from_row).expr.eval sem row = Outcome.panicked ∧
      (f.generate_try_from_row).expr.eval sem row = Outcome.err e) ∧
    (∀ (sem : Sem) (row : Row) (f : FromRowField) (t : String) (v : Nat)
        (e : DbError),
      f.validate = Except.ok () → f.try_from = some t →
      Row.try_get sem row (TargetTy.ty t) f.column_name = Except.ok v →
      sem.tryFromConv f.ty (TargetTy.ty t) v = Except.error e →
      (f.generate_from_row).expr.eval sem row = Outcome.panicked ∧
      (f.generate_try_from_row).expr.eval sem row = Outcome.err e) ∧
    (∀ (sem : Sem) (row : Row) (fs : List FromRowField),
      (evalInits sem row
        (fs.map FromRowField.generate_try_from_row)).isPanic = false) ∧
    (∀ (sem : Sem) (row : Row) (inits : List FieldInit)
        (vs : List (String × Nat)),
      evalInits sem row inits = StructOutcome.ok vs →
      vs.map Prod.fst = inits.map FieldInit.ident) := by
  refine ⟨?_, ?_, ?_, ?_, ?_, ?_, ?_⟩
  · intro sem row f
    exact eval_isErr_of_canErr sem row _ (genFrom_canErr f)
  · intro sem row f
    exact eval_isPanic_of_canPanic sem row _ (genTry_canPanic f)
  · intro sem row f e hfl hget
    constructor
    · apply eval_panicked_of_base
      rw [genFrom_baseOf]
      simp [hfl, GenExpr.eval, hget]
    · apply eval_err_of_base
      rw [genTry_baseOf]
      simp [hfl, GenExpr.eval, hget]
  · intro sem row f fn v e hval htfn hget hconv
    obtain ⟨h1, h2, h3, h4⟩ :=
      (validate_ok_exclusive f hval).2.2.1 (by simp [htfn])
    constructor
    · simp [FromRowField.generate_from_row, FromRowField.genTargetTy,
        htfn, h1, h2, h3, h4, GenExpr.eval, hget, hconv]
    · simp [FromRowField.generate_try_from_row, FromRowField.genTargetTy,
        htfn, h1, h2, h3, h4, GenExpr.eval, hget, hconv]
  · intro sem row f t v e hval ht hget hconv
    obtain ⟨h1, h2, h3, h4⟩ :=
      (validate_ok_exclusive f hval).2.2.2.2 (by simp [ht])
    constructor
    · simp [FromRowField.generate_from_row, FromRowField.genTargetTy,
        FromRowField.target_ty, ht, h1, h2, h3, h4, GenExpr.eval, hget,
        hconv]
    · simp [FromRowField.generate_try_from_row, FromRowField.genTargetTy,
        FromRowField.target_ty, ht, h1, h2, h3, h4, GenExpr.eval, hget,
        hconv]
  · intro sem row fs
    apply evalInits_isPanic
    intro i hi
    obtain ⟨f, _, hf⟩ := List.mem_map.mp hi
    rw [← hf]
    exact eval_isPanic_of_canPanic sem row _ (genTry_canPanic f)
  · intro sem row inits vs h
    exact evalInits_ok_idents sem row inits vs h

/-- Witness for C2 at three concrete failures: the plain field `fPlain`
against the empty row (column `a` absent), the `try_from_fn` field
`fTryFromFn` whose conversion function fails on the extracted value, and
the `try_from` field `fTryFrom` whose `TryFrom` conversion fails; in each
case `from_row` panics and `try_from_row` returns exactly the error. -/
theorem C2_witness :
    ((fPlain.generate_from_row).expr.eval semTrivial rowEmpty =
        Outcome.panicked ∧
      (fPlain.generate_try_from_row).expr.eval semTrivial rowEmpty =
        Outcome.err (DbError.columnNotFound "a")) ∧
    ((fTryFromFn.generate_from_row).expr.eval semFailConv rowJson =
        Outcome.panicked ∧
      (fTryFromFn.generate_try_from_row).expr.eval semFailConv rowJson =
        Outcome.err (DbError.convFailed "tfn")) ∧
    ((fTryFrom.generate_from_row).expr.eval semFailConv rowN =
        Outcome.panicked ∧
      (fTryFrom.generate_try_from_row).expr.eval semFailConv rowN =
        Outcome.err (DbError.convFailed "tf")) :=
  ⟨C2_panic_versus_propagation.2.2.1 semTrivial rowEmpty fPlain
      (DbError.columnNotFound "a") rfl rfl,
   C2_panic_versus_propagation.2.2.2.1 semFailConv rowJson fTryFromFn
      "json_fn" 7 (DbError.convFailed "tfn") rfl rfl rfl rfl,
   C2_panic_versus_propagation.2.2.2.2.1 semFailConv rowN fTryFrom
      "i64" 5 (DbError.convFailed "tf") rfl rfl rfl rfl⟩

/-- C3: Field validation fails — and the derive emits no implementation —
if and only if the field declares an invalid attribute combination: more
than one of `from`, `from_fn`, `try_from`, `try_from_fn`, or `flatten`
combined with one of those four, or `flatten` combined with `rename`
(`invalidCombo`); every other combination is accepted, and a struct's
generation fails exactly when one of its fields is invalid. -/
theorem C3_validation_characterization :
    (∀ f : FromRowField,
      (∃ msg, f.validate = Except.error msg) ↔ invalidCombo f = true) ∧
    (∀ d : DeriveFromRow,
      (∃ msg, d.generate = Except.error msg) ↔
        ∃ f ∈ d.fields, invalidCombo f = true) := by
  have perField : ∀ f : FromRowField,
      (∃ msg, f.validate = Except.error msg) ↔ invalidCombo f = true := by
    intro f
    constructor
    · rintro ⟨msg, hmsg⟩
      by_contra hbad
      rw [Bool.not_eq_true] at hbad
      have hok := (validate_ok_iff f).mpr hbad
      rw [hok] at hmsg
      exact Except.noConfusion hmsg
    · intro hinv
      cases hv : f.validate with
      | ok u =>
        cases u
        have := (validate_ok_iff f).mp hv
        rw [hinv] at this
        exact absurd this (by simp)
      | error msg => exact ⟨msg, rfl⟩
  refine ⟨perField, ?_⟩
  intro d
  constructor
  · rintro ⟨msg, hmsg⟩
    unfold DeriveFromRow.generate at hmsg
    cases hv : d.validate with
    | ok u =>
      rw [hv] at hmsg
      exact Except.noConfusion hmsg
    | error e =>
      have hnall : ¬ ∀ f ∈ d.fields, f.validate = Except.ok () := by
        intro hall
        have hok : d.validate = Except.ok () :=
          (validateFields_ok_iff d.fields).mpr hall
        rw [hok] at hv
        exact Except.noConfusion hv
      push_neg at hnall
      obtain ⟨f, hf, hne⟩ := hnall
      refine ⟨f, hf, ?_⟩
      by_contra hb
      rw [Bool.not_eq_true] at hb
      exact hne ((validate_ok_iff f).mpr hb)
  · rintro ⟨f, hf, hinv⟩
    obtain ⟨msg, hmsg⟩ := (perField f).mpr hinv
    have hnok : d.validate ≠ Except.ok () := by
      intro hok
      have hall := (validateFields_ok_iff d.fields).mp hok
      have := hall f hf
      rw [hmsg] at this
      exact Except.noConfusion this
    cases hv : d.validate with
    | ok u => cases u; exact absurd hv hnok
    | error e =>
      refine ⟨e, ?_⟩
      unfold DeriveFromRow.generate
      rw [hv]

/-- Witness for C3: the invalid field `fBad` (with both `from` and
`from_fn`) is rejected, and the struct `dBad` containing it generates no
implementation. -/
theorem C3_witness :
    invalidCombo fBad = true ∧ (∃ f ∈ dBad.fields, invalidCombo f = true) :=
  ⟨(C3_validation_characterization.1 fBad).mp
      ⟨"cant use the from_row conversion attributes together", rfl⟩,
   (C3_validation_characterization.2 dBad).mp
      ⟨"cant use the from_row conversion attributes together", rfl⟩⟩

/-- C4: For every valid field carrying a conversion directive, the
user-supplied conversion is applied to the raw extracted value before
assignment, in both generated operations: `from_fn` and `try_from_fn`
wrap the extraction in a call to the named function, and `from` and
`try_from` extract at the directive's target type and then apply
`From::from` respectively `TryFrom::try_from`. -/
theorem C4_conversion_wrapping (f : FromRowField)
    (h : f.validate = Except.ok ()) :
    (∀ fn, f.from_fn = some fn →
      (f.generate_from_row).expr =
        GenExpr.callFn fn (GenExpr.rowGet TargetTy.infer f.column_name) ∧
      (f.generate_try_from_row).expr =
        GenExpr.callFn fn
          (GenExpr.rowTryGetQ TargetTy.infer f.column_name)) ∧
    (∀ fn, f.try_from_fn = some fn →
      (f.generate_from_row).expr =
        GenExpr.callFnExpect fn
          (GenExpr.rowGet TargetTy.infer f.column_name) ∧
      (f.generate_try_from_row).expr =
        GenExpr.callFnQ fn
          (GenExpr.rowTryGetQ TargetTy.infer f.column_name)) ∧
    (∀ t, f.«from» = some t →
      (f.generate_from_row).expr =
        GenExpr.fromConv f.ty (TargetTy.ty t)
          (GenExpr.rowGet (TargetTy.ty t) f.column_name) ∧
      (f.generate_try_from_row).expr =
        GenExpr.fromConv f.ty (TargetTy.ty t)
          (GenExpr.rowTryGetQ (TargetTy.ty t) f.column_name)) ∧
    (∀ t, f.try_from = some t →
      (f.generate_from_row).expr =
        GenExpr.tryFromConvExpect f.ty (TargetTy.ty t)
          (GenExpr.rowGet (TargetTy.ty t) f.column_name) ∧
      (f.generate_try_from_row).expr =
        GenExpr.tryFromConvQ f.ty (TargetTy.ty t)
          (GenExpr.rowTryGetQ (TargetTy.ty t) f.column_name)) := by
  obtain ⟨hflat, hffn, htffn, hfr, htf⟩ := validate_ok_exclusive f h
  refine ⟨?_, ?_, ?_, ?_⟩
  · intro fn hfn
    obtain ⟨h1, h2, h3, h4⟩ := hffn (by simp [hfn])
    constructor
    · simp [FromRowField.generate_from_row, FromRowField.genTargetTy,
        hfn, h1, h2, h3, h4]
    · simp [FromRowField.generate_try_from_row, FromRowField.genTargetTy,
        hfn, h1, h2, h3, h4]
  · intro fn hfn
    obtain ⟨h1, h2, h3, h4⟩ := htffn (by simp [hfn])
    constructor
    · simp [FromRowField.generate_from_row, FromRowField.genTargetTy,
        hfn, h1, h2, h3, h4]
    · simp [FromRowField.generate_try_from_row, FromRowField.genTargetTy,
        hfn, h1, h2, h3, h4]
  · intro t ht
    obtain ⟨h1, h2, h3, h4⟩ := hfr (by simp [ht])
    constructor
    · simp [FromRowField.generate_from_row, FromRowField.genTargetTy,
        FromRowField.target_ty, ht, h1, h2, h3, h4]
    · simp [FromRowField.generate_try_from_row, FromRowField.genTargetTy,
        FromRowField.target_ty, ht, h1, h2, h3, h4]
  · intro t ht
    obtain ⟨h1, h2, h3, h4⟩ := htf (by simp [ht])
    constructor
    · simp [FromRowField.generate_from_row, FromRowField.genTargetTy,
        FromRowField.target_ty, ht, h1, h2, h3, h4]
    · simp [FromRowField.generate_try_from_row, FromRowField.genTargetTy,
        FromRowField.target_ty, ht, h1, h2, h3, h4]

/-- Witness for C4 at the concrete fields `fFromFn` and `fTryFrom`. -/
theorem C4_witness :
    ((fFromFn.generate_from_row).expr =
        GenExpr.callFn "json_fn" (GenExpr.rowGet TargetTy.infer "json") ∧
      (fFromFn.generate_try_from_row).expr =
        GenExpr.callFn "json_fn"
          (GenExpr.rowTryGetQ TargetTy.infer "json")) ∧
    ((fTryFrom.generate_from_row).expr =
        GenExpr.tryFromConvExpect "u32" (TargetTy.ty "i64")
          (GenExpr.rowGet (TargetTy.ty "i64") "n") ∧
      (fTryFrom.generate_try_from_row).expr =
        GenExpr.tryFromConvQ "u32" (TargetTy.ty "i64")
          (GenExpr.rowTryGetQ (TargetTy.ty "i64") "n")) :=
  ⟨(C4_conversion_wrapping fFromFn rfl).1 "json_fn" rfl,
   (C4_conversion_wrapping fTryFrom rfl).2.2.2 "i64" rfl⟩

/-- C5: For every valid input struct declaration, the generator emits
exactly two operations on that struct: the panicking conversion
`from_row` returning `Self` and the fallible conversion `try_from_row`
returning `Result<Self, Error>`, and no other operations. -/
theorem C5_exactly_two_operations (d : DeriveFromRow) (impl : FromRowImpl)
    (h : d.generate = Except.ok impl) :
    impl.fns.length = 2 ∧
    impl.fns.map GenFn.name = ["from_row", "try_from_row"] ∧
    impl.fns.map GenFn.ret = [RetTy.selfTy, RetTy.resultSelfDbError] := by
  unfold DeriveFromRow.generate at h
  cases hv : d.validate with
  | ok u =>
    rw [hv] at h
    cases h
    simp
  | error e =>
    rw [hv] at h
    exact Except.noConfusion h

/-- Witness for C5 at the concrete declaration `dTodo`. -/
theorem C5_witness :
    dTodo.generate = Except.ok implTodo ∧
    implTodo.fns.length = 2 ∧
    implTodo.fns.map GenFn.name = ["from_row", "try_from_row"] ∧
    implTodo.fns.map GenFn.ret = [RetTy.selfTy, RetTy.resultSelfDbError] :=
  ⟨rfl, C5_exactly_two_operations dTodo implTodo rfl⟩

/-- C6: The struct's fields form an ordered list and generation preserves
that order: both generated operations contain exactly one field
initializer per declared field, appearing in the same order as the fields
are declared. -/
theorem C6_order_preserved (d : DeriveFromRow) (impl : FromRowImpl)
    (h : d.generate = Except.ok impl) :
    ∃ fromFn tryFn, impl.fns = [fromFn, tryFn] ∧
      fromFn.body = d.fields.map FromRowField.generate_from_row ∧
      tryFn.body = d.fields.map FromRowField.generate_try_from_row ∧
      fromFn.body.map FieldInit.ident =
        d.fields.map FromRowField.identName ∧
      tryFn.body.map FieldInit.ident =
        d.fields.map FromRowField.identName ∧
      fromFn.body.length = d.fields.length ∧
      tryFn.body.length = d.fields.length := by
  unfold DeriveFromRow.generate at h
  cases hv : d.validate with
  | ok u =>
    rw [hv] at h
    cases h
    refine ⟨_, _, rfl, rfl, rfl, ?_, ?_, by simp, by simp⟩
    · rw [List.map_map]
      rfl
    · rw [List.map_map]
      rfl
  | error e =>
    rw [hv] at h
    exact Except.noConfusion h

/-- Witness for C6 at the two-field declaration `dPair`: both bodies hold
one initializer per field, for `a` then `b`, in declaration order. -/
theorem C6_witness :
    ∃ fromFn tryFn, implPair.fns = [fromFn, tryFn] ∧
      fromFn.body.map FieldInit.ident = ["a", "b"] ∧
      tryFn.body.map FieldInit.ident = ["a", "b"] := by
  obtain ⟨fromFn, tryFn, hfns, hbf, hbt, hif, hit, hlf, hlt⟩ :=
    C6_order_preserved dPair implPair rfl
  refine ⟨fromFn, tryFn, hfns, ?_, ?_⟩
  · rw [hif]; rfl
  · rw [hit]; rfl

/-- C7: For every non-flatten field, the sql column name used in the
generated extraction is the `rename` attribute's string when present, and
otherwise exactly the field's rust identifier rendered as a string;
flatten fields use no column name at all. -/
theorem C7_column_naming (f : FromRowField) :
    (∀ r, f.rename = some r → f.column_name = r) ∧
    (f.rename = none → f.column_name = f.identName) ∧
    (f.flatten = false →
      (f.generate_from_row).expr.columnsRead = [f.column_name] ∧
      (f.generate_try_from_row).expr.columnsRead = [f.column_name]) ∧
    (f.flatten = true →
      (f.generate_from_row).expr.columnsRead = [] ∧
      (f.generate_try_from_row).expr.columnsRead = []) := by
  refine ⟨?_, ?_, ?_, ?_⟩
  · intro r hr
    simp [FromRowField.column_name, hr]
  · intro hr
    simp [FromRowField.column_name, hr]
  · intro hfl
    constructor
    · rw [genFrom_columnsRead]; simp [hfl]
    · rw [genTry_columnsRead]; simp [hfl]
  · intro hfl
    constructor
    · rw [genFrom_columnsRead]; simp [hfl]
    · rw [genTry_columnsRead]; simp [hfl]

/-- Witness for C7 at the renamed field `fRenamed` (column `b`, not the
identifier `a`) and the plain field `fPlain` (column = identifier `a`). -/
theorem C7_witness :
    fRenamed.column_name = "b" ∧ fPlain.column_name = "a" ∧
    (fRenamed.generate_from_row).expr.columnsRead = ["b"] :=
  ⟨(C7_column_naming fRenamed).1 "b" rfl,
   (C7_column_naming fPlain).2.1 rfl,
   ((C7_column_naming fRenamed).2.2.1 rfl).1⟩

/-- C8: For every valid field using `from_fn` or `try_from_fn`, the
generator adds no where-clause predicate and leaves the extraction's
target type inferred (`_`); for every other valid field it adds exactly
one bound on the target type — a `FromRow` bound when `flatten` is set,
otherwise a `FromSql` bound — plus the `From`/`TryFrom` conversion bounds
when `from` or `try_from` is set. -/
theorem C8_predicate_generation (f : FromRowField) (acc : List Predicate)
    (h : f.validate = Except.ok ()) :
    ((f.from_fn.isSome || f.try_from_fn.isSome) = true →
      f.add_predicates acc = acc ∧ f.genTargetTy = TargetTy.infer) ∧
    (f.from_fn = none → f.try_from_fn = none →
      (f.flatten = true →
        f.add_predicates acc = acc ++ [Predicate.fromRowBound f.target_ty]) ∧
      (f.flatten = false →
        (f.«from» = none → f.try_from = none →
          f.add_predicates acc = acc ++ [Predicate.fromSqlBound f.ty]) ∧
        (∀ t, f.«from» = some t →
          f.add_predicates acc =
            acc ++ [Predicate.fromSqlBound t, Predicate.fromBound f.ty t]) ∧
        (∀ t, f.try_from = some t →
          f.add_predicates acc =
            acc ++ [Predicate.fromSqlBound t,
              Predicate.tryFromBound f.ty t, Predicate.errFromBound f.ty t,
              Predicate.errDebugBound f.ty t]))) := by
  obtain ⟨hflat, hffn, htffn, hfrS, htfS⟩ := validate_ok_exclusive f h
  constructor
  · intro hor
    rcases Bool.or_eq_true_iff.mp hor with hs | hs
    · obtain ⟨h1, h2, h3, h4⟩ := hffn hs
      obtain ⟨fn, hfn⟩ := Option.isSome_iff_exists.mp hs
      constructor
      · simp [FromRowField.add_predicates, hfn, h1, h2, h3]
      · simp [FromRowField.genTargetTy, hfn]
    · obtain ⟨h1, h2, h3, h4⟩ := htffn hs
      obtain ⟨fn, hfn⟩ := Option.isSome_iff_exists.mp hs
      constructor
      · simp [FromRowField.add_predicates, hfn, h1, h2, h3]
      · simp [FromRowField.genTargetTy, hfn, h3]
  · intro hfn htfn
    constructor
    · intro hfl
      obtain ⟨h1, h2, _, _, _⟩ := hflat hfl
      simp [FromRowField.add_predicates, hfn, htfn, hfl, h1, h2]
    · intro hfl
      refine ⟨?_, ?_, ?_⟩
      · intro h1 h2
        simp [FromRowField.add_predicates, FromRowField.target_ty,
          hfn, htfn, hfl, h1, h2]
      · intro t ht
        obtain ⟨_, h2, _, _⟩ := hfrS (by simp [ht])
        simp [FromRowField.add_predicates, FromRowField.target_ty,
          hfn, htfn, hfl, ht, h2]
      · intro t ht
        obtain ⟨h1, _, _, _⟩ := htfS (by simp [ht])
        simp [FromRowField.add_predicates, FromRowField.target_ty,
          hfn, htfn, hfl, ht, h1]

/-- Witness for C8 at `fFromFn` (no predicate, inferred target),
`fFlatten` (one `FromRow` bound) and `fTryFrom` (a `FromSql` bound plus
the three `TryFrom` bounds). -/
theorem C8_witness :
    (fFromFn.add_predicates [] = [] ∧
      fFromFn.genTargetTy = TargetTy.infer) ∧
    fFlatten.add_predicates [] = [Predicate.fromRowBound "User"] ∧
    fTryFrom.add_predicates [] =
      [Predicate.fromSqlBound "i64", Predicate.tryFromBound "u32" "i64",
        Predicate.errFromBound "u32" "i64",
        Predicate.errDebugBound "u32" "i64"] :=
  ⟨(C8_predicate_generation fFromFn [] rfl).1 rfl,
   ((C8_predicate_generation fFlatten [] rfl).2 rfl rfl).1 rfl,
   (((C8_predicate_generation fTryFrom [] rfl).2 rfl rfl).2 rfl).2.2
     "i64" rfl⟩

/-- C9: The generator is a pure, deterministic function of its input
declaration: two runs on declarations with the same name, generics and
field list produce the same output, with no dependence on external state
(the embedding of `try_derive_from_row` is a total function of exactly
these three components). -/
theorem C9_deterministic (d₁ d₂ : DeriveFromRow)
    (hi : d₁.ident = d₂.ident) (hg : d₁.generics = d₂.generics)
    (hd : d₁.data = d₂.data) :
    try_derive_from_row d₁ = try_derive_from_row d₂ := by
  cases d₁
  cases d₂
  simp only at hi hg hd
  subst hi
  subst hg
  subst hd
  rfl

/-- Witness for C9: two syntactically distinct but componentwise equal
declarations generate identical output. -/
theorem C9_witness :
    try_derive_from_row dTodo =
      try_derive_from_row ⟨"Todo", "", [fPlain]⟩ :=
  C9_deterministic dTodo ⟨"Todo", "", [fPlain]⟩ rfl rfl rfl

/-- Counterexample to C10: two valid fields with identical five-component
spec descriptors (same identifier, type, rename, flatten and conversion
reference "json_fn") — one via `from_fn`, one via `try_from_fn` —
generate different code, so the claimed descriptor does not capture the
field's mapping and the recognized attribute syntax is wider than
claimed. -/
theorem C10_counterexample :
    specDescriptorOf fFromFn = specDescriptorOf fTryFromFn ∧
    fFromFn.validate = Except.ok () ∧
    fTryFromFn.validate = Except.ok () ∧
    fFromFn ≠ fTryFromFn ∧
    fFromFn.generate_from_row ≠ fTryFromFn.generate_from_row ∧
    fFromFn.generate_try_from_row ≠ fTryFromFn.generate_try_from_row :=
  ⟨rfl, rfl, rfl, by decide, by decide, by decide⟩

/-- C10 (amended): Each field's descriptor consists of exactly an
identifier, a declared type, an optional flatten flag, an optional column
rename, and four optional conversion directives — `from` and `try_from`
(naming a target type) and `from_fn` and `try_from_fn` (naming a
function); fields agreeing on these eight components are the same
descriptor and generate identical code. -/
theorem C10_descriptor_components (f g : FromRowField)
    (hi : f.ident = g.ident) (ht : f.ty = g.ty)
    (hfl : f.flatten = g.flatten) (htf : f.try_from = g.try_from)
    (hfr : f.«from» = g.«from») (hrn : f.rename = g.rename)
    (hfn : f.from_fn = g.from_fn) (htfn : f.try_from_fn = g.try_from_fn) :
    f = g ∧ f.validate = g.validate ∧
    f.generate_from_row = g.generate_from_row ∧
    f.generate_try_from_row = g.generate_try_from_row ∧
    (∀ acc, f.add_predicates acc = g.add_predicates acc) := by
  have : f = g := by
    cases f
    cases g
    simp only at hi ht hfl htf hfr hrn hfn htfn
    subst hi; subst ht; subst hfl; subst htf; subst hfr; subst hrn
    subst hfn; subst htfn
    rfl
  subst this
  exact ⟨rfl, rfl, rfl, rfl, fun _ => rfl⟩

/-- Witness for C10's amended theorem at two componentwise equal concrete
fields. -/
theorem C10_witness :
    fPlain = fPlainTwin ∧
    fPlain.generate_from_row = fPlainTwin.generate_from_row :=
  ⟨(C10_descriptor_components fPlain fPlainTwin rfl rfl rfl rfl rfl rfl
      rfl rfl).1,
   (C10_descriptor_components fPlain fPlainTwin rfl rfl rfl rfl rfl rfl
      rfl rfl).2.2.1⟩
